import Mathlib

/-!
Shallow embedding of the gentoo-kernel-builder core (src/src/lib.rs).

The program scans `/usr/src` for kernel source trees, enforces two symlink
invariants (`<version-dir>/.config` and `/usr/src/linux`), and drives an
external build pipeline (`make -j N`, `make modules_install`, `dracut`).

Modelling choices:
- The filesystem is a finite association list from paths (strings) to nodes
  (regular file, directory, or symlink carrying its raw target string).
  `Path::exists` / `Path::is_file` follow symlinks, so they are embedded via a
  fuel-bounded resolution function (fuel 40, the Linux `SYMLOOP_MAX` style
  bound on nested symlink dereferences).
- External processes, interactive prompts and `fs::copy` outcomes are
  oracles packaged in an `Env` record: each field records what the OS would
  answer for that particular call (`none`/`Except.ok` = success).  A
  successful `wait` carries the child's exit status, which the code under
  embedding discards.
- Every observable side effect (symlink creation, file removal, process
  spawn, artifact copy) is recorded in an event trace, so frame claims
  ("no filesystem mutation", "no further process spawned") are statements
  about the trace.
- Rust panics (`unwrap` on a failed prompt, on a cancelled selection, on an
  out-of-range index, or on `strip_prefix` returning `None`) are embedded as
  the `BuildOutcome.panic` result.
-/

namespace GKB

/-- An OS error code, as carried inside `std::io::Error`. -/
inductive OsError
  | eexist
  | enoent
  | einval
  | eisdir
  | eacces
  | other (code : Nat)
deriving DecidableEq

/-- The error enum of the crate (`BuilderErr`, declared in `src/error.rs`,
which is not shipped under `src/`).  Modelled from the spec: the spec's §7
error taxonomy (ConfigMissing, LinkingError, BuildFailure, PromptFailure,
PrivilegeFailure) together with the constructor names visible at every
construction site in `src/src/lib.rs` and `src/src/main.rs`. -/
inductive BuilderErr
  | KernelConfigMissing
  | LinkingFileError (e : OsError)
  | KernelBuildFail (e : OsError)
  | PromptError (e : OsError)
  | NoPrivileges
deriving DecidableEq

/-- Equality of `Except` values is decidable when it is on both sides. -/
instance {ε : Type u} {α : Type v} [DecidableEq ε] [DecidableEq α] :
    DecidableEq (Except ε α) := fun a b =>
  match a, b with
  | Except.error e, Except.error f =>
    decidable_of_iff (e = f) ⟨by rintro rfl; rfl, fun h => by injection h⟩
  | Except.error _, Except.ok _ => isFalse (fun h => Except.noConfusion h)
  | Except.ok _, Except.error _ => isFalse (fun h => Except.noConfusion h)
  | Except.ok x, Except.ok y =>
    decidable_of_iff (x = y) ⟨by rintro rfl; rfl, fun h => by injection h⟩

/-- Filesystem paths are embedded as plain strings. -/
abbrev Path := String

/-- A filesystem node: regular file, directory, or symlink with its raw
(unresolved) target string. -/
inductive Node
  | file
  | dir
  | symlink (target : Path)
deriving DecidableEq

/-- The filesystem: a finite map from paths to nodes, as an association
list (earlier bindings shadow later ones). -/
abbrev FS := List (Path × Node)

/-- Look up the node stored at a path (lstat-like: does not follow
symlinks). -/
def FS.lookup (fs : FS) (p : Path) : Option Node :=
  match fs with
  | [] => none
  | (q, n) :: rest => if q = p then some n else FS.lookup rest p

/-- Follow symlinks from a path, with bounded fuel, returning the final
non-symlink node if resolution succeeds. -/
def FS.resolve (fs : FS) : Nat → Path → Option Node
  | 0, _ => none
  | fuel + 1, p =>
    match fs.lookup p with
    | some (Node.symlink t) => FS.resolve fs fuel t
    | some n => some n
    | none => none

/-- The bound on nested symlink dereferences (Linux resolves at most 40
links before reporting ELOOP). -/
def SYMLOOP_MAX : Nat := 40

/-- Embedding of `Path::exists`: stat-like, follows symlinks; a dangling
symlink therefore does not "exist". -/
def FS.pathExists (fs : FS) (p : Path) : Bool :=
  (fs.resolve SYMLOOP_MAX p).isSome

/-- Embedding of `Path::is_file`: follows symlinks and checks that the
resolved node is a regular file. -/
def FS.isFile (fs : FS) (p : Path) : Bool :=
  match fs.resolve SYMLOOP_MAX p with
  | some Node.file => true
  | _ => false

/-- Embedding of `std::os::unix::fs::symlink(target, link)`: fails with
EEXIST when any node (even a dangling symlink) occupies the link path,
otherwise records the new symlink. -/
def FS.symlinkTo (fs : FS) (target link : Path) : Except OsError FS :=
  match fs.lookup link with
  | some _ => Except.error OsError.eexist
  | none => Except.ok ((link, Node.symlink target) :: fs)

/-- Remove every binding of a path from the filesystem map. -/
def FS.erase (fs : FS) (p : Path) : FS :=
  match fs with
  | [] => []
  | (q, n) :: rest => if q = p then FS.erase rest p else (q, n) :: FS.erase rest p

/-- Embedding of `std::fs::remove_file`: fails on a missing path or on a
directory, removes the node (a symlink is removed, not followed). -/
def FS.removeFile (fs : FS) (p : Path) : Except OsError FS :=
  match fs.lookup p with
  | none => Except.error OsError.enoent
  | some Node.dir => Except.error OsError.eisdir
  | some _ => Except.ok (fs.erase p)

/-- Embedding of `Path::read_link`: returns the raw target string of a
symlink, EINVAL on a non-symlink node, ENOENT on a missing path. -/
def FS.readLink (fs : FS) (p : Path) : Except OsError Path :=
  match fs.lookup p with
  | some (Node.symlink t) => Except.ok t
  | some _ => Except.error OsError.einval
  | none => Except.error OsError.enoent

/-- Overwrite (or create) a regular file at a path; the effect of a
successful `std::fs::copy` on the destination. -/
def FS.setFile (fs : FS) (p : Path) : FS :=
  (p, Node.file) :: fs.erase p

/-- Whether the first character list is a prefix of the second. -/
def charsPre : List Char → List Char → Bool
  | [], _ => true
  | _ :: _, [] => false
  | a :: as, b :: bs => a = b && charsPre as bs

/-- Embedding of `str::starts_with` (a byte prefix of valid UTF-8 text that
is itself a whole string coincides with a character-list prefix). -/
def strStarts (s pre : String) : Bool := charsPre pre.data s.data

/-- Embedding of `str::ends_with`. -/
def strEnds (s suf : String) : Bool := charsPre suf.data.reverse s.data.reverse

/-- How the OS interprets the raw target string of a symlink that lives
directly under `/usr/src`: an absolute target names itself, a relative
target is resolved against the directory holding the link. -/
def resolveTarget (t : Path) : Path :=
  if strStarts t "/" then t else "/usr/src/" ++ t

/-- Embedding of `str::strip_prefix`. -/
def stripPrefixOpt (s pre : String) : Option String :=
  if strStarts s pre then some ⟨s.data.drop pre.data.length⟩ else none

/-- The `GKBConfig` struct: the three configured paths. -/
structure GKBConfig where
  kernel_file_path : Path
  initramfs_file_path : Path
  kernel_config_file_path : Path
deriving DecidableEq

/-- The `VersionEntry` struct: an identified kernel source tree. -/
structure VersionEntry where
  path : Path
  version_string : String
deriving DecidableEq

/-- One immediate child of the scan root as produced by `read_dir`: its
final path component and whether the entry is itself a symlink. -/
structure DirEntry where
  name : String
  isSymlink : Bool
deriving DecidableEq

/-- `KernelBuilder::LINUX_PATH`. -/
def LINUX_PATH : Path := "/usr/src"

/-- The full path of a direct child of the scan root, i.e.
`Path::join(LINUX_PATH, name)`. -/
def childPath (name : String) : Path := LINUX_PATH ++ "/" ++ name

/-- Embedding of `KernelBuilder::get_available_version` as a function of the
`read_dir(LINUX_PATH)` answer.  For a child produced by `read_dir`,
`dir.path()` is `LINUX_PATH.join(name)`, so the defensive component-wise
`path.starts_with(LINUX_PATH)` check holds by construction and
`path.strip_prefix(LINUX_PATH)` yields back `name`; both are therefore
embedded as identities.  The symlink exclusion and the two name-token tests
are embedded directly; a failed `read_dir` leaves the version list empty. -/
def get_available_version (listing : Except OsError (List DirEntry)) :
    List VersionEntry :=
  match listing with
  | Except.error _ => []
  | Except.ok entries =>
    (entries.filter (fun e => !e.isSymlink)).filterMap (fun e =>
      let version_string := e.name
      if strStarts version_string "linux" && strEnds version_string "gentoo" then
        some ⟨childPath e.name, version_string⟩
      else none)

/-- An observable side effect of one build invocation. -/
inductive Event
  | symlinkCreate (target link : Path)
  | removeFile (p : Path)
  | spawn (prog : String) (args : List String) (cwd : Path)
  | copyFile (src dst : Path)
deriving DecidableEq

/-- The oracle for everything the program asks of the outside world during
one `build` call: prompt answers, process spawn/wait outcomes (a successful
wait carries the child's exit status), the artifact copy outcome, and the
host parallelism query. -/
structure Env where
  promptSelect : Except OsError (Option Nat)
  availableParallelism : Option Nat
  makeSpawn : Option OsError
  makeWait : Except OsError Int
  copyBzImage : Except OsError Nat
  confirmModules : Except OsError Bool
  modulesSpawn : Option OsError
  modulesWait : Except OsError Int
  confirmInitramfs : Except OsError Bool
  dracutSpawn : Option OsError
  dracutWait : Except OsError Int

/-- The overall result of `KernelBuilder::build`: normal return, a
`BuilderErr`, or a Rust panic. -/
inductive BuildOutcome
  | ok
  | err (e : BuilderErr)
  | panic
deriving DecidableEq

/-- The common `Command::new(..).spawn()?.wait()?` shape shared by the three
pipeline stages: a spawn failure produces `KernelBuildFail` with no process
started; a wait failure produces `KernelBuildFail` after the process was
spawned; the exit status of a successful wait is discarded. -/
def run_external (spawnR : Option OsError) (waitR : Except OsError Int)
    (prog : String) (args : List String) (cwd : Path) :
    Except BuilderErr Unit × List Event :=
  match spawnR with
  | some e => (Except.error (BuilderErr.KernelBuildFail e), [])
  | none =>
    match waitR with
    | Except.error e =>
      (Except.error (BuilderErr.KernelBuildFail e), [Event.spawn prog args cwd])
    | Except.ok _ => (Except.ok (), [Event.spawn prog args cwd])

/-- Embedding of `KernelBuilder::build_kernel` (src/src/lib.rs:121-144):
`make -j N` in the selected tree, then copy
`<tree>/arch/x86/boot/bzImage` to the configured kernel destination. -/
def build_kernel (cfg : GKBConfig) (p : Path) (env : Env) (fs : FS) :
    Except BuilderErr Unit × FS × List Event :=
  let threads : Nat := env.availableParallelism.getD 1
  match run_external env.makeSpawn env.makeWait "make" ["-j", toString threads] p with
  | (Except.error e, evs) => (Except.error e, fs, evs)
  | (Except.ok _, evs) =>
    match env.copyBzImage with
    | Except.error e => (Except.error (BuilderErr.KernelBuildFail e), fs, evs)
    | Except.ok _ =>
      (Except.ok (), fs.setFile cfg.kernel_file_path,
        evs ++ [Event.copyFile (p ++ "/arch/x86/boot/bzImage") cfg.kernel_file_path])

/-- Embedding of `KernelBuilder::install_kernel_modules`
(src/src/lib.rs:146-166): `make modules_install` in the selected tree. -/
def install_kernel_modules (p : Path) (env : Env) (fs : FS) :
    Except BuilderErr Unit × FS × List Event :=
  match run_external env.modulesSpawn env.modulesWait "make" ["modules_install"] p with
  | (r, evs) => (r, fs, evs)

/-- Embedding of `KernelBuilder::generate_initramfs` (src/src/lib.rs:168-200):
the dracut argument list strips the `linux-` token from the version string
with `.unwrap()`, so a version string without that token panics before any
process is spawned. -/
def generate_initramfs (cfg : GKBConfig) (ve : VersionEntry) (env : Env)
    (fs : FS) : BuildOutcome × FS × List Event :=
  match stripPrefixOpt ve.version_string "linux-" with
  | none => (BuildOutcome.panic, fs, [])
  | some kver =>
    match run_external env.dracutSpawn env.dracutWait "dracut"
        ["--hostonly", "--kver", kver, "--force", cfg.initramfs_file_path]
        ve.path with
    | (Except.error e, evs) => (BuildOutcome.err e, fs, evs)
    | (Except.ok _, evs) => (BuildOutcome.ok, fs, evs)

/-- Embedding of `KernelBuilder::prompt_for_kernel_version`
(src/src/lib.rs:202-217): the two `.unwrap()` calls and the vector indexing
turn a prompt failure, a cancelled selection, or an out-of-range index into
a panic, embedded as `none`. -/
def prompt_for_kernel_version (versions : List VersionEntry) (env : Env) :
    Option VersionEntry :=
  match env.promptSelect with
  | Except.error _ => none
  | Except.ok none => none
  | Except.ok (some i) => versions[i]?

/-- The config-link step of `KernelBuilder::build` (src/src/lib.rs:88-96):
if `<version-dir>/.config` does not `exists()`, validate the configured
source and create the symlink; the validation happens only on this path. -/
def ensure_config_link (cfg : GKBConfig) (p : Path) (fs : FS) :
    Except BuilderErr Unit × FS × List Event :=
  let link := p ++ "/.config"
  if fs.pathExists link then (Except.ok (), fs, [])
  else
    let dot_config := cfg.kernel_config_file_path
    if !fs.pathExists dot_config || !fs.isFile dot_config then
      (Except.error BuilderErr.KernelConfigMissing, fs, [])
    else
      match fs.symlinkTo dot_config link with
      | Except.error e => (Except.error (BuilderErr.LinkingFileError e), fs, [])
      | Except.ok fs2 => (Except.ok (), fs2, [Event.symlinkCreate dot_config link])

/-- The current-link step of `KernelBuilder::build` (src/src/lib.rs:98-106):
read the raw target of `/usr/src/linux`; if it differs (as a string) from
the selected version string, remove the link and recreate it pointing at the
selected tree. -/
def ensure_current_link (p : Path) (version_string : String) (fs : FS) :
    Except BuilderErr Unit × FS × List Event :=
  let linux := LINUX_PATH ++ "/linux"
  match fs.readLink linux with
  | Except.error e => (Except.error (BuilderErr.LinkingFileError e), fs, [])
  | Except.ok tgt =>
    if tgt ≠ version_string then
      match fs.removeFile linux with
      | Except.error e => (Except.error (BuilderErr.LinkingFileError e), fs, [])
      | Except.ok fs2 =>
        match fs2.symlinkTo p linux with
        | Except.error e =>
          (Except.error (BuilderErr.LinkingFileError e), fs2, [Event.removeFile linux])
        | Except.ok fs3 =>
          (Except.ok (), fs3, [Event.removeFile linux, Event.symlinkCreate p linux])
    else (Except.ok (), fs, [])

/-- Embedding of `KernelBuilder::build` (src/src/lib.rs:80-119): select a
version (panicking prompt), enforce the two symlink invariants, compile,
then run the two confirmation-gated optional stages; a `confirm_prompt`
failure becomes `PromptError` (src/src/lib.rs:219-224). -/
def build (cfg : GKBConfig) (versions : List VersionEntry) (env : Env)
    (fs : FS) : BuildOutcome × FS × List Event :=
  match prompt_for_kernel_version versions env with
  | none => (BuildOutcome.panic, fs, [])
  | some ve =>
    match ensure_config_link cfg ve.path fs with
    | (Except.error e, fs1, ev1) => (BuildOutcome.err e, fs1, ev1)
    | (Except.ok _, fs1, ev1) =>
      match ensure_current_link ve.path ve.version_string fs1 with
      | (Except.error e, fs2, ev2) => (BuildOutcome.err e, fs2, ev1 ++ ev2)
      | (Except.ok _, fs2, ev2) =>
        match build_kernel cfg ve.path env fs2 with
        | (Except.error e, fs3, ev3) => (BuildOutcome.err e, fs3, ev1 ++ ev2 ++ ev3)
        | (Except.ok _, fs3, ev3) =>
          match env.confirmModules with
          | Except.error e =>
            (BuildOutcome.err (BuilderErr.PromptError e), fs3, ev1 ++ ev2 ++ ev3)
          | Except.ok doModules =>
            match (if doModules then install_kernel_modules ve.path env fs3
                   else (Except.ok (), fs3, [])) with
            | (Except.error e, fs4, ev4) =>
              (BuildOutcome.err e, fs4, ev1 ++ ev2 ++ ev3 ++ ev4)
            | (Except.ok _, fs4, ev4) =>
              match env.confirmInitramfs with
              | Except.error e =>
                (BuildOutcome.err (BuilderErr.PromptError e), fs4, ev1 ++ ev2 ++ ev3 ++ ev4)
              | Except.ok doInitramfs =>
                if doInitramfs then
                  match generate_initramfs cfg ve env fs4 with
                  | (o, fs5, ev5) => (o, fs5, ev1 ++ ev2 ++ ev3 ++ ev4 ++ ev5)
                else (BuildOutcome.ok, fs4, ev1 ++ ev2 ++ ev3 ++ ev4)

/-! Concrete fixtures used to instantiate the theorems below. -/

/-- A sample configuration struct. -/
def sampleCfg : GKBConfig := ⟨"/boot/vmlinuz", "/boot/initramfs.img", "/etc/kernels/config"⟩

/-- The sample scanned version entry for `/usr/src/linux-5.10-gentoo`. -/
def sampleVe : VersionEntry := ⟨"/usr/src/linux-5.10-gentoo", "linux-5.10-gentoo"⟩

/-- A sample filesystem: the version tree with its `.config` already linked,
the `linux` alias pointing (with an absolute target) at the version tree,
and the configured `.config` source present. -/
def sampleFs : FS :=
  [("/usr/src/linux-5.10-gentoo/.config", Node.file),
   ("/usr/src/linux", Node.symlink "/usr/src/linux-5.10-gentoo"),
   ("/usr/src/linux-5.10-gentoo", Node.dir),
   ("/etc/kernels/config", Node.file)]

/-- An oracle in which every external interaction succeeds: the operator
picks the first entry and declines both optional stages. -/
def sampleEnv : Env :=
  { promptSelect := Except.ok (some 0)
    availableParallelism := some 4
    makeSpawn := none
    makeWait := Except.ok 0
    copyBzImage := Except.ok 1024
    confirmModules := Except.ok false
    modulesSpawn := none
    modulesWait := Except.ok 0
    confirmInitramfs := Except.ok false
    dracutSpawn := none
    dracutWait := Except.ok 0 }

/-- Like `sampleEnv`, but spawning the compile process fails at the OS
level. -/
def envCompileFail : Env := { sampleEnv with makeSpawn := some (OsError.other 5) }

/-- A filesystem holding only the already-existing `.config` link target
path; the configured `.config` source is absent. -/
def fsLinkOnly : FS := [("/usr/src/linux-5.10-gentoo/.config", Node.file)]

/-- A filesystem where `<version-dir>/.config` is a dangling symlink and
the configured source exists. -/
def fsDangling : FS :=
  [("/usr/src/linux-5.10-gentoo/.config", Node.symlink "/gone"),
   ("/etc/kernels/config", Node.file)]

/-- Like `sampleFs`, but the `linux` alias carries the relative target
string that the code's raw comparison accepts. -/
def fsRelAlias : FS :=
  [("/usr/src/linux-5.10-gentoo/.config", Node.file),
   ("/usr/src/linux", Node.symlink "linux-5.10-gentoo"),
   ("/usr/src/linux-5.10-gentoo", Node.dir),
   ("/etc/kernels/config", Node.file)]

/-! Helper lemmas about the shapes of stage results. -/

/-- The only event a spawn-and-wait step can emit is its own spawn. -/
lemma run_external_event (sp : Option OsError) (w : Except OsError Int)
    (prog : String) (args : List String) (cwd : Path) (ev : Event)
    (h : ev ∈ (run_external sp w prog args cwd).2) :
    ev = Event.spawn prog args cwd := by
  cases sp <;> cases w <;> simp [run_external] at h <;> exact h

/-- The compile stage only emits its own `make -j` spawn and the bzImage
copy. -/
lemma build_kernel_event (cfg : GKBConfig) (p : Path) (env : Env) (fs : FS)
    (ev : Event) (h : ev ∈ (build_kernel cfg p env fs).2.2) :
    ev = Event.spawn "make" ["-j", toString (env.availableParallelism.getD 1)] p ∨
    ev = Event.copyFile (p ++ "/arch/x86/boot/bzImage") cfg.kernel_file_path := by
  rcases env with ⟨ps, ap, ms, mw, cb, cm, msp, mwt, ci, ds, dw⟩
  cases ms <;> cases mw <;> cases cb <;> simp [build_kernel, run_external] at h <;> tauto

/-- The module-install stage only emits its own `make modules_install`
spawn. -/
lemma install_event (p : Path) (env : Env) (fs : FS) (ev : Event)
    (h : ev ∈ (install_kernel_modules p env fs).2.2) :
    ev = Event.spawn "make" ["modules_install"] p := by
  rcases env with ⟨ps, ap, ms, mw, cb, cm, msp, mwt, ci, ds, dw⟩
  cases msp <;> cases mwt <;> simp [install_kernel_modules, run_external] at h <;> tauto

/-- The initramfs stage only emits its own `dracut` spawn. -/
lemma gen_initramfs_event (cfg : GKBConfig) (ve : VersionEntry) (env : Env)
    (fs : FS) (ev : Event) (h : ev ∈ (generate_initramfs cfg ve env fs).2.2) :
    ∃ args, ev = Event.spawn "dracut" args ve.path := by
  rcases env with ⟨ps, ap, ms, mw, cb, cm, msp, mwt, ci, ds, dw⟩
  cases hsp : stripPrefixOpt ve.version_string "linux-" <;>
    cases ds <;> cases dw <;>
    simp [generate_initramfs, run_external, hsp] at h <;>
    exact ⟨_, h⟩

/-- The compile stage's outcome and events do not depend on the filesystem
argument (only the post-state does, through the artifact copy). -/
lemma build_kernel_fs_independent (cfg : GKBConfig) (p : Path) (env : Env)
    (fs fs' : FS) :
    (build_kernel cfg p env fs).1 = (build_kernel cfg p env fs').1 ∧
    (build_kernel cfg p env fs).2.2 = (build_kernel cfg p env fs').2.2 := by
  rcases env with ⟨ps, ap, ms, mw, cb, cm, msp, mwt, ci, ds, dw⟩
  cases ms <;> cases mw <;> cases cb <;> simp [build_kernel, run_external]

/-- The module-install stage's outcome and events do not depend on the
filesystem argument. -/
lemma install_fs_independent (p : Path) (env : Env) (fs fs' : FS) :
    (install_kernel_modules p env fs).1 = (install_kernel_modules p env fs').1 ∧
    (install_kernel_modules p env fs).2.2 = (install_kernel_modules p env fs').2.2 := by
  rcases env with ⟨ps, ap, ms, mw, cb, cm, msp, mwt, ci, ds, dw⟩
  cases msp <;> cases mwt <;> simp [install_kernel_modules, run_external]

/-- The initramfs stage's outcome and events do not depend on the
filesystem argument. -/
lemma gen_initramfs_fs_independent (cfg : GKBConfig) (ve : VersionEntry)
    (env : Env) (fs fs' : FS) :
    (generate_initramfs cfg ve env fs).1 = (generate_initramfs cfg ve env fs').1 ∧
    (generate_initramfs cfg ve env fs).2.2 = (generate_initramfs cfg ve env fs').2.2 := by
  rcases env with ⟨ps, ap, ms, mw, cb, cm, msp, mwt, ci, ds, dw⟩
  cases hsp : stripPrefixOpt ve.version_string "linux-" <;>
    cases ds <;> cases dw <;> simp [generate_initramfs, run_external, hsp]

/-- The config-link step can only emit the creation of the config link. -/
lemma config_link_event (cfg : GKBConfig) (p : Path) (fs : FS) (ev : Event)
    (h : ev ∈ (ensure_config_link cfg p fs).2.2) :
    ev = Event.symlinkCreate cfg.kernel_config_file_path (p ++ "/.config") := by
  unfold ensure_config_link at h
  cases h1 : fs.pathExists (p ++ "/.config") <;> simp [h1] at h
  by_cases h2 : fs.pathExists cfg.kernel_config_file_path = false ∨
      fs.isFile cfg.kernel_config_file_path = false
  · simp [h2] at h
  · simp [h2] at h
    cases h3 : fs.symlinkTo cfg.kernel_config_file_path (p ++ "/.config") with
    | error e => simp [h3] at h
    | ok fs2 => simp [h3] at h; exact h

/-- The current-link step can only emit the alias removal and its
recreation. -/
lemma current_link_event (p : Path) (vs : String) (fs : FS) (ev : Event)
    (h : ev ∈ (ensure_current_link p vs fs).2.2) :
    ev = Event.removeFile (LINUX_PATH ++ "/linux") ∨
    ev = Event.symlinkCreate p (LINUX_PATH ++ "/linux") := by
  unfold ensure_current_link at h
  cases h1 : fs.readLink (LINUX_PATH ++ "/linux") with
  | error e => simp [h1] at h
  | ok tgt =>
    simp [h1] at h
    by_cases h2 : tgt = vs
    · simp [h2] at h
    · simp [ne_eq, h2] at h
      cases h3 : fs.removeFile (LINUX_PATH ++ "/linux") with
      | error e => simp [h3] at h
      | ok fs2 =>
        simp [h3] at h
        cases h4 : fs2.symlinkTo p (LINUX_PATH ++ "/linux") with
        | error e => simp [h4] at h; tauto
        | ok fs3 => simp [h4] at h; tauto

/-- When the link path `exists()` (in the symlink-following sense), the
config-link step is a successful no-op. -/
lemma config_link_exists_noop (cfg : GKBConfig) (p : Path) (fs : FS)
    (h : fs.pathExists (p ++ "/.config") = true) :
    ensure_config_link cfg p fs = (Except.ok (), fs, []) := by
  simp [ensure_config_link, h]

/-- Creating a symlink over any occupied path fails with EEXIST. -/
lemma symlinkTo_occupied (fs : FS) (t l : Path)
    (h : (fs.lookup l).isSome = true) :
    fs.symlinkTo t l = Except.error OsError.eexist := by
  obtain ⟨n, hn⟩ := Option.isSome_iff_exists.mp h
  simp [FS.symlinkTo, hn]

/-- Whenever any node occupies the link path, the config-link step leaves
the filesystem untouched and emits no event. -/
lemma config_link_occupied_state (cfg : GKBConfig) (p : Path) (fs : FS)
    (h : (fs.lookup (p ++ "/.config")).isSome = true) :
    (ensure_config_link cfg p fs).2.1 = fs ∧
    (ensure_config_link cfg p fs).2.2 = [] := by
  unfold ensure_config_link
  cases h1 : fs.pathExists (p ++ "/.config") <;> simp [h1]
  by_cases h2 : fs.pathExists cfg.kernel_config_file_path = false ∨
      fs.isFile cfg.kernel_config_file_path = false
  · simp [h2]
  · simp [h2, symlinkTo_occupied fs _ _ h]

/-- The config-link step either leaves the filesystem unchanged or, when
the link path is vacant, prepends exactly the new config symlink. -/
lemma config_link_state_cases (cfg : GKBConfig) (p : Path) (fs : FS) :
    (ensure_config_link cfg p fs).2.1 = fs ∨
    (fs.lookup (p ++ "/.config") = none ∧
      (ensure_config_link cfg p fs).2.1 =
        (p ++ "/.config", Node.symlink cfg.kernel_config_file_path) :: fs) := by
  unfold ensure_config_link
  cases h1 : fs.pathExists (p ++ "/.config") <;> simp [h1]
  by_cases h2 : fs.pathExists cfg.kernel_config_file_path = false ∨
      fs.isFile cfg.kernel_config_file_path = false
  · simp [h2]
  · simp only [h2, if_false]
    cases h3 : fs.lookup (p ++ "/.config") with
    | some n => simp [FS.symlinkTo, h3]
    | none => simp [FS.symlinkTo, h3]

/-- When the raw target of the alias equals the version string, the
current-link step is a successful no-op. -/
lemma current_link_noop (p : Path) (vs : String) (fs : FS)
    (h : fs.readLink (LINUX_PATH ++ "/linux") = Except.ok vs) :
    ensure_current_link p vs fs = (Except.ok (), fs, []) := by
  simp [ensure_current_link, h]

/-! Claim theorems. -/

/-- C1 (counterexample): the config-link step does NOT fail with
`ConfigMissing` on every invocation with a missing source: when the target
link path already exists, the source is never validated and the step
succeeds, so the claim's unconditional failure promise is false. -/
theorem config_link_skips_source_validation :
    fsLinkOnly.pathExists sampleCfg.kernel_config_file_path = false ∧
    ensure_config_link sampleCfg "/usr/src/linux-5.10-gentoo" fsLinkOnly =
      (Except.ok (), fsLinkOnly, []) := by decide

/-- C1 (amended): if the target `.config` link path does not exist and the
configured source is missing or not a regular file, the config-link step
fails with `KernelConfigMissing`, leaves the filesystem unchanged and
performs no mutation. -/
theorem config_link_missing_source (cfg : GKBConfig) (p : Path) (fs : FS)
    (hlink : fs.pathExists (p ++ "/.config") = false)
    (hsrc : fs.pathExists cfg.kernel_config_file_path = false ∨
      fs.isFile cfg.kernel_config_file_path = false) :
    ensure_config_link cfg p fs =
      (Except.error BuilderErr.KernelConfigMissing, fs, []) := by
  simp only [ensure_config_link, hlink, Bool.false_eq_true, if_false]
  rcases hsrc with h | h <;> simp [h]

/-- C1 (witness): the amended statement at a concrete empty filesystem. -/
theorem config_link_missing_source_witness :
    ensure_config_link sampleCfg "/usr/src/linux-5.10-gentoo" [] =
      (Except.error BuilderErr.KernelConfigMissing, [], []) :=
  config_link_missing_source sampleCfg "/usr/src/linux-5.10-gentoo" []
    (by decide) (Or.inl (by decide))

/-- C4 (counterexample): a state where the target link path exists as a
(dangling) link, the configured source exists and is a regular file, and
yet the step is not a no-op: it attempts to create the link and fails with
`LinkingFileError EEXIST` (the filesystem is still unmutated). -/
theorem config_link_dangling_link_errs :
    fsDangling.lookup "/usr/src/linux-5.10-gentoo/.config" =
      some (Node.symlink "/gone") ∧
    fsDangling.pathExists sampleCfg.kernel_config_file_path = true ∧
    fsDangling.isFile sampleCfg.kernel_config_file_path = true ∧
    ensure_config_link sampleCfg "/usr/src/linux-5.10-gentoo" fsDangling =
      (Except.error (BuilderErr.LinkingFileError OsError.eexist), fsDangling, []) := by
  decide

/-- C4 (amended): the config-link step is a successful no-op whenever the
target link path exists in the `Path::exists` sense (which follows
symlinks); whenever any node occupies the link path (even a dangling link)
the filesystem is not mutated and nothing is overwritten; and running the
step twice yields the same filesystem state as running it once. -/
theorem config_link_idempotent_nondestructive (cfg : GKBConfig) (p : Path)
    (fs : FS) :
    (fs.pathExists (p ++ "/.config") = true →
      ensure_config_link cfg p fs = (Except.ok (), fs, [])) ∧
    ((fs.lookup (p ++ "/.config")).isSome = true →
      (ensure_config_link cfg p fs).2.1 = fs ∧
      (ensure_config_link cfg p fs).2.2 = []) ∧
    (ensure_config_link cfg p ((ensure_config_link cfg p fs).2.1)).2.1 =
      (ensure_config_link cfg p fs).2.1 := by
  refine ⟨config_link_exists_noop cfg p fs, config_link_occupied_state cfg p fs, ?_⟩
  rcases config_link_state_cases cfg p fs with h | ⟨hnone, h⟩
  · rw [h]; exact h
  · rw [h]
    exact (config_link_occupied_state cfg p _ (by simp [FS.lookup])).1

/-- C4 (witness): the amended statement instantiated where the link already
exists as a regular file. -/
theorem config_link_idempotent_nondestructive_witness :
    ensure_config_link sampleCfg sampleVe.path sampleFs =
      (Except.ok (), sampleFs, []) :=
  (config_link_idempotent_nondestructive sampleCfg sampleVe.path sampleFs).1
    (by decide)

/-- C5: the scan returns exactly the non-symlink immediate children whose
name starts with the kernel-source token and ends with the distribution
token; in particular a root listing `linux-5.10-gentoo`, `linux-current`
(a symlink) and `other-tree` yields exactly `linux-5.10-gentoo`. -/
theorem scan_filter_characterization :
    (∀ (entries : List DirEntry) (v : VersionEntry),
      v ∈ get_available_version (Except.ok entries) ↔
        ∃ e, e ∈ entries ∧ e.isSymlink = false ∧
          strStarts e.name "linux" = true ∧ strEnds e.name "gentoo" = true ∧
          v = ⟨childPath e.name, e.name⟩) ∧
    get_available_version (Except.ok
      [⟨"linux-5.10-gentoo", false⟩, ⟨"linux-current", true⟩, ⟨"other-tree", false⟩]) =
      [⟨childPath "linux-5.10-gentoo", "linux-5.10-gentoo"⟩] := by
  constructor
  · intro entries v
    simp only [get_available_version, List.mem_filterMap, List.mem_filter,
      Bool.not_eq_true']
    constructor
    · rintro ⟨e, ⟨he, hsym⟩, hfe⟩
      cases hc : strStarts e.name "linux" && strEnds e.name "gentoo" with
      | false => rw [hc] at hfe; simp at hfe
      | true =>
        rw [hc] at hfe
        simp only [if_true] at hfe
        obtain ⟨h1, h2⟩ : strStarts e.name "linux" = true ∧
            strEnds e.name "gentoo" = true := by simpa using hc
        exact ⟨e, he, hsym, h1, h2, by
          cases hfe; rfl⟩
    · rintro ⟨e, he, hsym, h1, h2, rfl⟩
      refine ⟨e, ⟨he, hsym⟩, ?_⟩
      rw [h1, h2]
      rfl
  · decide

/-- C8: a failed directory read of the scan root (missing root, permission
denied, or any other OS error) yields an empty version list; the scan is a
total function and surfaces no error. -/
theorem scan_error_yields_empty (e : OsError) :
    get_available_version (Except.error e) = [] := rfl

/-- C9: the scan filter admits a directory named `linuxgentoo` (it starts
with "linux" and ends with "gentoo" but not with "linux-"), and invoking
the initramfs stage on that entry panics while stripping the
kernel-source-token prefix, before any process is spawned and with no
typed error. -/
theorem initramfs_panics_on_unstrippable_version :
    get_available_version (Except.ok [⟨"linuxgentoo", false⟩]) =
      [⟨childPath "linuxgentoo", "linuxgentoo"⟩] ∧
    ∀ (cfg : GKBConfig) (env : Env) (fs : FS),
      generate_initramfs cfg ⟨childPath "linuxgentoo", "linuxgentoo"⟩ env fs =
        (BuildOutcome.panic, fs, []) := by
  refine ⟨by decide, ?_⟩
  intro cfg env fs
  simp [generate_initramfs, stripPrefixOpt,
    show strStarts "linuxgentoo" "linux-" = false from by decide]

/-- C3: each build stage succeeds exactly when its spawn, its wait, and
(for the compile stage) the artifact copy succeed at the OS level; every
stage error is a `KernelBuildFail` wrapping the OS error; and the exit
status delivered by a successful wait is discarded, so a process that ran
and exited non-zero is indistinguishable from success.  The initramfs part
assumes the version string carries the `linux-` token, so that the stage
reaches its spawn at all instead of panicking (see C9). -/
theorem stage_build_failure_iff (cfg : GKBConfig) (p : Path) (ve : VersionEntry)
    (env : Env) (fs : FS)
    (hstrip : strStarts ve.version_string "linux-" = true) :
    (((build_kernel cfg p env fs).1 = Except.ok ()) ↔
      (env.makeSpawn = none ∧ (∃ s, env.makeWait = Except.ok s) ∧
        ∃ n, env.copyBzImage = Except.ok n)) ∧
    (∀ e, (build_kernel cfg p env fs).1 = Except.error e →
      ∃ os, e = BuilderErr.KernelBuildFail os) ∧
    (((install_kernel_modules p env fs).1 = Except.ok ()) ↔
      (env.modulesSpawn = none ∧ ∃ s, env.modulesWait = Except.ok s)) ∧
    (∀ e, (install_kernel_modules p env fs).1 = Except.error e →
      ∃ os, e = BuilderErr.KernelBuildFail os) ∧
    (((generate_initramfs cfg ve env fs).1 = BuildOutcome.ok) ↔
      (env.dracutSpawn = none ∧ ∃ s, env.dracutWait = Except.ok s)) ∧
    (∀ e, (generate_initramfs cfg ve env fs).1 = BuildOutcome.err e →
      ∃ os, e = BuilderErr.KernelBuildFail os) ∧
    (∀ s t : Int, build_kernel cfg p { env with makeWait := Except.ok s } fs =
      build_kernel cfg p { env with makeWait := Except.ok t } fs) ∧
    (∀ s t : Int,
      install_kernel_modules p { env with modulesWait := Except.ok s } fs =
        install_kernel_modules p { env with modulesWait := Except.ok t } fs) ∧
    (∀ s t : Int,
      generate_initramfs cfg ve { env with dracutWait := Except.ok s } fs =
        generate_initramfs cfg ve { env with dracutWait := Except.ok t } fs) := by
  obtain ⟨rest, hrest⟩ : ∃ r, stripPrefixOpt ve.version_string "linux-" = some r := by
    simp [stripPrefixOpt, hstrip]
  rcases env with ⟨ps, ap, ms, mw, cb, cm, msp, mwt, ci, ds, dw⟩
  refine ⟨?_, ?_, ?_, ?_, ?_, ?_, ?_, ?_, ?_⟩
  · cases ms <;> cases mw <;> cases cb <;> simp [build_kernel, run_external]
  · cases ms <;> cases mw <;> cases cb <;> simp [build_kernel, run_external]
  · cases msp <;> cases mwt <;> simp [install_kernel_modules, run_external]
  · cases msp <;> cases mwt <;> simp [install_kernel_modules, run_external]
  · cases ds <;> cases dw <;> simp [generate_initramfs, run_external, hrest]
  · cases ds <;> cases dw <;> simp [generate_initramfs, run_external, hrest]
  · intro s t; cases ms <;> cases cb <;> simp [build_kernel, run_external]
  · intro s t; cases msp <;> simp [install_kernel_modules, run_external]
  · intro s t; cases ds <;> simp [generate_initramfs, run_external, hrest]

/-- C3 (witness): the compile stage succeeds under the all-success oracle. -/
theorem stage_build_failure_iff_witness :
    (build_kernel sampleCfg sampleVe.path sampleEnv sampleFs).1 = Except.ok () :=
  ((stage_build_failure_iff sampleCfg sampleVe.path sampleVe sampleEnv sampleFs
    (by decide)).1).mpr ⟨rfl, ⟨0, rfl⟩, ⟨1024, rfl⟩⟩

/-- A fully successful compile stage: spawn, wait and copy all succeed. -/
lemma build_kernel_success (cfg : GKBConfig) (p : Path) (env : Env) (fs : FS)
    (s : Int) (n : Nat) (h1 : env.makeSpawn = none)
    (h2 : env.makeWait = Except.ok s) (h3 : env.copyBzImage = Except.ok n) :
    build_kernel cfg p env fs =
      (Except.ok (), FS.setFile fs cfg.kernel_file_path,
        [Event.spawn "make" ["-j", toString (env.availableParallelism.getD 1)] p,
         Event.copyFile (p ++ "/arch/x86/boot/bzImage") cfg.kernel_file_path]) := by
  rcases env with ⟨ps, ap, ms, mw, cb, cm, msp, mwt, ci, ds, dw⟩
  subst h1
  subst h2
  subst h3
  simp [build_kernel, run_external]

/-- C7: the compile stage spawns the build tool with `-j N` where `N` is
the detected parallelism (falling back to 1 when undetectable); on full
success it copies `<tree>/arch/x86/boot/bzImage` to the configured kernel
destination; and a copy failure is reported as `KernelBuildFail`. -/
theorem compile_stage_contract (cfg : GKBConfig) (p : Path) (env : Env)
    (fs : FS) :
    (env.makeSpawn = none →
      (build_kernel cfg p env fs).2.2.head? =
        some (Event.spawn "make" ["-j", toString (env.availableParallelism.getD 1)] p)) ∧
    (∀ n, env.availableParallelism = some n →
      toString (env.availableParallelism.getD 1) = toString n) ∧
    (env.availableParallelism = none →
      toString (env.availableParallelism.getD 1) = "1") ∧
    (∀ s n, env.makeSpawn = none → env.makeWait = Except.ok s →
      env.copyBzImage = Except.ok n →
      build_kernel cfg p env fs =
        (Except.ok (), FS.setFile fs cfg.kernel_file_path,
          [Event.spawn "make" ["-j", toString (env.availableParallelism.getD 1)] p,
           Event.copyFile (p ++ "/arch/x86/boot/bzImage") cfg.kernel_file_path])) ∧
    (∀ s e, env.makeSpawn = none → env.makeWait = Except.ok s →
      env.copyBzImage = Except.error e →
      (build_kernel cfg p env fs).1 =
        Except.error (BuilderErr.KernelBuildFail e)) := by
  rcases env with ⟨ps, ap, ms, mw, cb, cm, msp, mwt, ci, ds, dw⟩
  refine ⟨?_, ?_, ?_, ?_, ?_⟩
  · intro h
    subst h
    cases mw <;> cases cb <;> simp [build_kernel, run_external]
  · intro n h
    subst h
    rfl
  · intro h
    subst h
    show toString ((none : Option Nat).getD 1) = "1"
    decide
  · intro s n h1 h2 h3
    subst h1
    subst h2
    subst h3
    simp [build_kernel, run_external]
  · intro s e h1 h2 h3
    subst h1
    subst h2
    subst h3
    simp [build_kernel, run_external]

/-- C7 (witness): the compile-stage contract at the all-success oracle. -/
theorem compile_stage_contract_witness :
    build_kernel sampleCfg sampleVe.path sampleEnv sampleFs =
      (Except.ok (), FS.setFile sampleFs sampleCfg.kernel_file_path,
        [Event.spawn "make" ["-j", toString (sampleEnv.availableParallelism.getD 1)]
          sampleVe.path,
         Event.copyFile (sampleVe.path ++ "/arch/x86/boot/bzImage")
          sampleCfg.kernel_file_path]) :=
  (compile_stage_contract sampleCfg sampleVe.path sampleEnv sampleFs).2.2.2.1
    0 1024 rfl rfl rfl

/-- When the compile spawn succeeds, the compile stage's trace contains the
`make -j` spawn event. -/
lemma build_kernel_spawn_mem (cfg : GKBConfig) (p : Path) (env : Env) (fs : FS)
    (h : env.makeSpawn = none) :
    Event.spawn "make" ["-j", toString (env.availableParallelism.getD 1)] p ∈
      (build_kernel cfg p env fs).2.2 := by
  rcases env with ⟨ps, ap, ms, mw, cb, cm, msp, mwt, ci, ds, dw⟩
  subst h
  cases mw <;> cases cb <;> simp [build_kernel, run_external]

/-- The whole trace of a build whose two link steps are no-ops is the
compile stage's trace followed by (only) module-install and dracut spawn
events. -/
lemma build_trace_after_links (cfg : GKBConfig) (versions : List VersionEntry)
    (env : Env) (fs : FS) (ve : VersionEntry)
    (hprompt : prompt_for_kernel_version versions env = some ve)
    (h1 : ensure_config_link cfg ve.path fs = (Except.ok (), fs, []))
    (h2 : ensure_current_link ve.path ve.version_string fs = (Except.ok (), fs, [])) :
    ∃ rest,
      (build cfg versions env fs).2.2 = (build_kernel cfg ve.path env fs).2.2 ++ rest ∧
      ∀ ev ∈ rest, (∃ cwd, ev = Event.spawn "make" ["modules_install"] cwd) ∨
        ∃ args cwd, ev = Event.spawn "dracut" args cwd := by
  rcases h3 : build_kernel cfg ve.path env fs with ⟨r3, fs3, ev3⟩
  cases r3 with
  | error e3 =>
    refine ⟨[], ?_, by simp⟩
    simp [build, hprompt, h1, h2, h3]
  | ok u3 =>
    cases hcm : env.confirmModules with
    | error e =>
      refine ⟨[], ?_, by simp⟩
      simp [build, hprompt, h1, h2, h3, hcm]
    | ok b =>
      cases b with
      | true =>
        rcases h4 : install_kernel_modules ve.path env fs3 with ⟨r4, fs4, ev4⟩
        have hev4 : ∀ ev ∈ ev4, ev = Event.spawn "make" ["modules_install"] ve.path :=
          fun ev hm => install_event ve.path env fs3 ev (by rw [h4]; exact hm)
        cases r4 with
        | error e4 =>
          refine ⟨ev4, ?_, fun ev hm => Or.inl ⟨ve.path, hev4 ev hm⟩⟩
          simp [build, hprompt, h1, h2, h3, hcm, h4]
        | ok u4 =>
          cases hci : env.confirmInitramfs with
          | error e =>
            refine ⟨ev4, ?_, fun ev hm => Or.inl ⟨ve.path, hev4 ev hm⟩⟩
            simp [build, hprompt, h1, h2, h3, hcm, h4, hci]
          | ok b2 =>
            cases b2 with
            | true =>
              rcases h5 : generate_initramfs cfg ve env fs4 with ⟨o5, fs5, ev5⟩
              have hev5 : ∀ ev ∈ ev5, ∃ args, ev = Event.spawn "dracut" args ve.path :=
                fun ev hm => gen_initramfs_event cfg ve env fs4 ev (by rw [h5]; exact hm)
              refine ⟨ev4 ++ ev5, ?_, ?_⟩
              · simp [build, hprompt, h1, h2, h3, hcm, h4, hci, h5]
              · intro ev hm
                rcases List.mem_append.mp hm with hm | hm
                · exact Or.inl ⟨ve.path, hev4 ev hm⟩
                · obtain ⟨args, h⟩ := hev5 ev hm
                  exact Or.inr ⟨args, ve.path, h⟩
            | false =>
              refine ⟨ev4, ?_, fun ev hm => Or.inl ⟨ve.path, hev4 ev hm⟩⟩
              simp [build, hprompt, h1, h2, h3, hcm, h4, hci]
      | false =>
        cases hci : env.confirmInitramfs with
        | error e =>
          refine ⟨[], ?_, by simp⟩
          simp [build, hprompt, h1, h2, h3, hcm, hci]
        | ok b2 =>
          cases b2 with
          | true =>
            rcases h5 : generate_initramfs cfg ve env fs3 with ⟨o5, fs5, ev5⟩
            have hev5 : ∀ ev ∈ ev5, ∃ args, ev = Event.spawn "dracut" args ve.path :=
              fun ev hm => gen_initramfs_event cfg ve env fs3 ev (by rw [h5]; exact hm)
            refine ⟨ev5, ?_, ?_⟩
            · simp [build, hprompt, h1, h2, h3, hcm, hci, h5]
            · intro ev hm
              obtain ⟨args, h⟩ := hev5 ev hm
              exact Or.inr ⟨args, ve.path, h⟩
          | false =>
            refine ⟨[], ?_, by simp⟩
            simp [build, hprompt, h1, h2, h3, hcm, hci]

/-- C2 (counterexample): a state whose current alias resolves to the
selected entry (through an absolute target) is still mutated: the build
succeeds but deletes and recreates `/usr/src/linux`, because the code
compares the raw target string with the bare version identifier. -/
theorem current_link_compares_raw_target :
    sampleFs.readLink (LINUX_PATH ++ "/linux") =
      Except.ok "/usr/src/linux-5.10-gentoo" ∧
    resolveTarget "/usr/src/linux-5.10-gentoo" = sampleVe.path ∧
    (build sampleCfg [sampleVe] sampleEnv sampleFs).1 = BuildOutcome.ok ∧
    Event.removeFile (LINUX_PATH ++ "/linux") ∈
      (build sampleCfg [sampleVe] sampleEnv sampleFs).2.2 ∧
    Event.symlinkCreate sampleVe.path (LINUX_PATH ++ "/linux") ∈
      (build sampleCfg [sampleVe] sampleEnv sampleFs).2.2 := by decide

/-- C2 (amended): when the current alias's raw target string equals the
selected entry's version string (and the config link already exists), the
build performs no symlink mutation at all — no removal, no creation — and
still reaches the compile stage (the `make -j` spawn is in the trace
whenever its spawn succeeds at the OS level). -/
theorem current_link_noop_on_matching_target (cfg : GKBConfig)
    (versions : List VersionEntry) (env : Env) (fs : FS) (i : Nat)
    (ve : VersionEntry)
    (hsel : env.promptSelect = Except.ok (some i))
    (hv : versions[i]? = some ve)
    (hcfg : fs.pathExists (ve.path ++ "/.config") = true)
    (hlink : fs.readLink (LINUX_PATH ++ "/linux") = Except.ok ve.version_string) :
    (∀ p, Event.removeFile p ∉ (build cfg versions env fs).2.2) ∧
    (∀ t l, Event.symlinkCreate t l ∉ (build cfg versions env fs).2.2) ∧
    (env.makeSpawn = none →
      Event.spawn "make" ["-j", toString (env.availableParallelism.getD 1)] ve.path ∈
        (build cfg versions env fs).2.2) := by
  have hprompt : prompt_for_kernel_version versions env = some ve := by
    simp [prompt_for_kernel_version, hsel, hv]
  obtain ⟨rest, htr, hrest⟩ := build_trace_after_links cfg versions env fs ve hprompt
    (config_link_exists_noop cfg ve.path fs hcfg)
    (current_link_noop ve.path ve.version_string fs hlink)
  refine ⟨?_, ?_, ?_⟩
  · intro p hm
    rw [htr] at hm
    rcases List.mem_append.mp hm with hm | hm
    · rcases build_kernel_event cfg ve.path env fs _ hm with h | h <;>
        exact Event.noConfusion h
    · rcases hrest _ hm with ⟨cwd, h⟩ | ⟨args, cwd, h⟩ <;> exact Event.noConfusion h
  · intro t l hm
    rw [htr] at hm
    rcases List.mem_append.mp hm with hm | hm
    · rcases build_kernel_event cfg ve.path env fs _ hm with h | h <;>
        exact Event.noConfusion h
    · rcases hrest _ hm with ⟨cwd, h⟩ | ⟨args, cwd, h⟩ <;> exact Event.noConfusion h
  · intro h
    rw [htr]
    exact List.mem_append_left _ (build_kernel_spawn_mem cfg ve.path env fs h)

/-- C2 (witness): the amended statement at the relative-target alias
state. -/
theorem current_link_noop_on_matching_target_witness :
    Event.removeFile (LINUX_PATH ++ "/linux") ∉
      (build sampleCfg [sampleVe] sampleEnv fsRelAlias).2.2 :=
  (current_link_noop_on_matching_target sampleCfg [sampleVe] sampleEnv fsRelAlias
    0 sampleVe rfl rfl (by decide) (by decide)).1 (LINUX_PATH ++ "/linux")

/-- C6: if the compile stage fails (on the given oracles), the build never
spawns the module-install or initramfs processes. -/
theorem compile_failure_stops_pipeline (cfg : GKBConfig)
    (versions : List VersionEntry) (env : Env) (fs : FS) (i : Nat)
    (ve : VersionEntry) (e : BuilderErr)
    (hsel : env.promptSelect = Except.ok (some i))
    (hv : versions[i]? = some ve)
    (hfail : (build_kernel cfg ve.path env fs).1 = Except.error e) :
    (∀ cwd, Event.spawn "make" ["modules_install"] cwd ∉
      (build cfg versions env fs).2.2) ∧
    (∀ args cwd, Event.spawn "dracut" args cwd ∉ (build cfg versions env fs).2.2) := by
  have hprompt : prompt_for_kernel_version versions env = some ve := by
    simp [prompt_for_kernel_version, hsel, hv]
  rcases h1 : ensure_config_link cfg ve.path fs with ⟨r1, fs1, ev1⟩
  have hev1 : ∀ ev ∈ ev1,
      ev = Event.symlinkCreate cfg.kernel_config_file_path (ve.path ++ "/.config") :=
    fun ev hm => config_link_event cfg ve.path fs ev (by rw [h1]; exact hm)
  cases r1 with
  | error e1 =>
    have hb : (build cfg versions env fs).2.2 = ev1 := by
      simp [build, hprompt, h1]
    rw [hb]
    exact ⟨fun cwd hm => Event.noConfusion (hev1 _ hm),
      fun args cwd hm => Event.noConfusion (hev1 _ hm)⟩
  | ok u1 =>
    rcases h2 : ensure_current_link ve.path ve.version_string fs1 with ⟨r2, fs2, ev2⟩
    have hev2 : ∀ ev ∈ ev2,
        ev = Event.removeFile (LINUX_PATH ++ "/linux") ∨
        ev = Event.symlinkCreate ve.path (LINUX_PATH ++ "/linux") :=
      fun ev hm => current_link_event ve.path ve.version_string fs1 ev
        (by rw [h2]; exact hm)
    cases r2 with
    | error e2 =>
      have hb : (build cfg versions env fs).2.2 = ev1 ++ ev2 := by
        simp [build, hprompt, h1, h2]
      rw [hb]
      constructor
      · intro cwd hm
        rcases List.mem_append.mp hm with hm | hm
        · exact Event.noConfusion (hev1 _ hm)
        · rcases hev2 _ hm with h | h <;> exact Event.noConfusion h
      · intro args cwd hm
        rcases List.mem_append.mp hm with hm | hm
        · exact Event.noConfusion (hev1 _ hm)
        · rcases hev2 _ hm with h | h <;> exact Event.noConfusion h
    | ok u2 =>
      rcases h3 : build_kernel cfg ve.path env fs2 with ⟨r3, fs3, ev3⟩
      have hr3 : r3 = Except.error e := by
        have hind := (build_kernel_fs_independent cfg ve.path env fs2 fs).1
        rw [h3] at hind
        exact hind.trans hfail
      subst hr3
      have hev3 : ∀ ev ∈ ev3,
          ev = Event.spawn "make" ["-j", toString (env.availableParallelism.getD 1)]
            ve.path ∨
          ev = Event.copyFile (ve.path ++ "/arch/x86/boot/bzImage")
            cfg.kernel_file_path :=
        fun ev hm => build_kernel_event cfg ve.path env fs2 ev (by rw [h3]; exact hm)
      have hb : (build cfg versions env fs).2.2 = ev1 ++ ev2 ++ ev3 := by
        simp [build, hprompt, h1, h2, h3]
      rw [hb]
      constructor
      · intro cwd hm
        rcases List.mem_append.mp hm with hm | hm
        · rcases List.mem_append.mp hm with hm | hm
          · exact Event.noConfusion (hev1 _ hm)
          · rcases hev2 _ hm with h | h <;> exact Event.noConfusion h
        · rcases hev3 _ hm with h | h
          · injection h with hp ha hc
            injection ha with hh ht
            exact absurd hh (by decide)
          · exact Event.noConfusion h
      · intro args cwd hm
        rcases List.mem_append.mp hm with hm | hm
        · rcases List.mem_append.mp hm with hm | hm
          · exact Event.noConfusion (hev1 _ hm)
          · rcases hev2 _ hm with h | h <;> exact Event.noConfusion h
        · rcases hev3 _ hm with h | h
          · injection h with hp ha hc
            exact absurd hp (by decide)
          · exact Event.noConfusion h

/-- C6 (witness): with a failing compile spawn, no module-install or dracut
process is spawned. -/
theorem compile_failure_stops_pipeline_witness :
    Event.spawn "dracut" ["--hostonly"] "/x" ∉
      (build sampleCfg [sampleVe] envCompileFail sampleFs).2.2 :=
  (compile_failure_stops_pipeline sampleCfg [sampleVe] envCompileFail sampleFs
    0 sampleVe (BuilderErr.KernelBuildFail (OsError.other 5)) rfl rfl
    (by decide)).2 ["--hostonly"] "/x"

/-- C10: a failure or cancellation of the version-selection prompt — and in
particular a selection over an empty candidate list — makes the build
panic with no typed error and no side effect, whereas a failure of either
post-compile confirmation prompt is translated into the typed
`PromptError`. -/
theorem selection_prompt_panics_confirm_prompts_typed :
    (∀ (cfg : GKBConfig) (versions : List VersionEntry) (env : Env) (fs : FS),
      ((∃ e, env.promptSelect = Except.error e) ∨
        env.promptSelect = Except.ok none ∨ versions = []) →
      build cfg versions env fs = (BuildOutcome.panic, fs, [])) ∧
    (∀ (cfg : GKBConfig) (versions : List VersionEntry) (env : Env) (fs : FS)
      (i : Nat) (ve : VersionEntry) (fs1 fs2 : FS) (ev1 ev2 : List Event)
      (s : Int) (n : Nat) (e : OsError),
      env.promptSelect = Except.ok (some i) → versions[i]? = some ve →
      ensure_config_link cfg ve.path fs = (Except.ok (), fs1, ev1) →
      ensure_current_link ve.path ve.version_string fs1 = (Except.ok (), fs2, ev2) →
      env.makeSpawn = none → env.makeWait = Except.ok s →
      env.copyBzImage = Except.ok n →
      env.confirmModules = Except.error e →
      (build cfg versions env fs).1 = BuildOutcome.err (BuilderErr.PromptError e)) ∧
    (∀ (cfg : GKBConfig) (versions : List VersionEntry) (env : Env) (fs : FS)
      (i : Nat) (ve : VersionEntry) (fs1 fs2 : FS) (ev1 ev2 : List Event)
      (s : Int) (n : Nat) (e : OsError),
      env.promptSelect = Except.ok (some i) → versions[i]? = some ve →
      ensure_config_link cfg ve.path fs = (Except.ok (), fs1, ev1) →
      ensure_current_link ve.path ve.version_string fs1 = (Except.ok (), fs2, ev2) →
      env.makeSpawn = none → env.makeWait = Except.ok s →
      env.copyBzImage = Except.ok n →
      env.confirmModules = Except.ok false →
      env.confirmInitramfs = Except.error e →
      (build cfg versions env fs).1 = BuildOutcome.err (BuilderErr.PromptError e)) := by
  refine ⟨?_, ?_, ?_⟩
  · intro cfg versions env fs h
    rcases h with ⟨e, h⟩ | h | h
    · simp [build, prompt_for_kernel_version, h]
    · simp [build, prompt_for_kernel_version, h]
    · subst h
      cases hps : env.promptSelect with
      | error e => simp [build, prompt_for_kernel_version, hps]
      | ok o =>
        cases o with
        | none => simp [build, prompt_for_kernel_version, hps]
        | some i => simp [build, prompt_for_kernel_version, hps]
  · intro cfg versions env fs i ve fs1 fs2 ev1 ev2 s n e hsel hv h1 h2 hms hmw hcb hcm
    have hprompt : prompt_for_kernel_version versions env = some ve := by
      simp [prompt_for_kernel_version, hsel, hv]
    have hbk := build_kernel_success cfg ve.path env fs2 s n hms hmw hcb
    simp [build, hprompt, h1, h2, hbk, hcm]
  · intro cfg versions env fs i ve fs1 fs2 ev1 ev2 s n e hsel hv h1 h2 hms hmw hcb hcm hci
    have hprompt : prompt_for_kernel_version versions env = some ve := by
      simp [prompt_for_kernel_version, hsel, hv]
    have hbk := build_kernel_success cfg ve.path env fs2 s n hms hmw hcb
    simp [build, hprompt, h1, h2, hbk, hcm, hci]

/-- C10 (witness): a selection over zero scanned candidates panics. -/
theorem selection_prompt_panics_confirm_prompts_typed_witness :
    build sampleCfg [] sampleEnv [] = (BuildOutcome.panic, [], []) :=
  selection_prompt_panics_confirm_prompts_typed.1 sampleCfg [] sampleEnv []
    (Or.inr (Or.inr rfl))

end GKB
